import Mathlib

/-!
Shallow embedding of `astrobject/instruments/catalogues.py`: per-survey
Vizier fetch functions (Gaia, SDSS, 2MASS, WISE), the survey-specific
`Catalogue` subclasses with their magnitude-key handling, and the
`stellar_density` helper.

The `Catalogue` base class lives in `baseinstrument.py`, which is not part
of the sources at hand; its operations used here (`set_mag_keys` storage,
`load`, `create`, `mag`, `nobjects_in_fov`) are modelled from the spec and
marked as such.  External libraries (astroquery, astropy, sncosmo, numpy)
are modelled by their documented behaviour: the remote query is an
explicit `Except` parameter, the sncosmo bandpass lookup is kept symbolic,
and `search_around_sky` / `bincount` are given their documented list
semantics.
-/

/-- Python exception values that the embedded code can raise. -/
inductive PyExn where
  | importError (msg : String)
  | ioError (msg : String)
  | nameError (nm : String)
  | indexError
  | valueError (msg : String)
  | typeError (msg : String)
  | other (msg : String)
deriving Repr, DecidableEq

/-- An astropy table as the fetchers see it: its column names and its
number of rows. -/
structure Table where
  columns : List String
  nrows : Nat
deriving Repr, DecidableEq

/-- Which survey subclass a catalogue instance belongs to. -/
inductive Survey where
  | gaia
  | sdss
  | mass
  | wise
deriving Repr, DecidableEq

/-- A value held by the `lbda` attribute: a hardcoded integer wavelength,
a plain Python string (WISE assigns the literal "TO BE DEFINED"), or the
symbolic result of the sncosmo bandpass lookup used by SDSS. -/
inductive LbdaV where
  | num (n : Nat)
  | strv (s : String)
  | bandpassWave (band : String)
deriving Repr, DecidableEq

/-- The in-memory catalogue: survey tag, the column-key mappings of the
generic schema, the derived effective wavelength, the loaded table and
the field-of-view mask.  The base class is not among the sources; its
attribute set is modelled from the spec (section 3, DATA MODEL). -/
structure Catalogue where
  survey : Survey
  key_mag : Option String := none
  key_magerr : Option String := none
  key_ra : Option String := none
  key_dec : Option String := none
  key_id : Option String := none
  key_class : Option String := none
  value_star : Option Int := none
  lbda : Option LbdaV := none
  data : Option Table := none
  fovmask : List Bool := []
deriving Repr, DecidableEq

/-- Whether the second character list is an initial segment of the first. -/
def strStarts : List Char → List Char → Bool
  | _, [] => true
  | [], _ :: _ => false
  | a :: l, b :: m => a = b && strStarts l m

/-- Whether the second character list occurs inside the first. -/
def strFindAux : List Char → List Char → Bool
  | [], p => strStarts [] p
  | a :: l, p => strStarts (a :: l) p || strFindAux l p

/-- Python substring containment, `sub in s`. -/
def strContains (s sub : String) : Bool :=
  strFindAux s.data sub.data

/-- Modelled from the spec: `Catalogue.set_mag_keys` of the base class
(`baseinstrument.py`, not among the sources) stores the magnitude key
mapping on the instance. -/
def Catalogue.base_set_mag_keys (c : Catalogue) (km kme : Option String) : Catalogue :=
  { c with key_mag := km, key_magerr := kme }

/-- Modelled from the spec: `Catalogue.load` of the base class populates
the catalogue data from a table, leaving the key mappings and the derived
wavelength untouched. -/
def Catalogue.load (c : Catalogue) (t : Table) : Catalogue :=
  { c with data := some t }

/-- Modelled from the spec: `Catalogue.create` of the base class populates
the catalogue from a table and records the survey column-key mappings
passed by the fetchers. -/
def Catalogue.create (c : Catalogue) (t : Table) (kc : Option String)
    (vs : Option Int) (kra kdec : String) : Catalogue :=
  { c with data := some t, key_class := kc, value_star := vs,
           key_ra := some kra, key_dec := some kdec }

/-- Modelled from the spec: the number of in-field-of-view objects of the
catalogue (`nobjects_in_fov` of the base class). -/
def Catalogue.nobjects_in_fov (c : Catalogue) : Nat :=
  c.fovmask.count true

/-- Modelled from the spec: `Catalogue.mag` of the base class requires the
magnitude key to be set and returns the data column it names (identified
here by that key). -/
def Catalogue.base_mag (c : Catalogue) : Except PyExn String :=
  match c.key_mag with
  | none => .error (.other "key_mag is not set")
  | some k => .ok k

namespace GAIACatalogue

/-- `GAIACatalogue(empty=True)`: `__build__` stores the default keys of the
constructor signature. -/
def empty : Catalogue :=
  { survey := .gaia, key_mag := some "__Gmag_", key_magerr := some "__e_Gmag_",
    key_id := some "Source" }

/-- `GAIACatalogue.set_mag_keys`: delegates to the base class, then tests
whether "G" occurs in `key_mag` with no None guard (a `None` key raises a
TypeError in Python) and, when it does, sets `lbda` to 6730. -/
def set_mag_keys (c : Catalogue) (km kme : Option String) : Except PyExn Catalogue :=
  let c := c.base_set_mag_keys km kme
  match km with
  | none => .error (.typeError "argument of type NoneType is not iterable")
  | some k =>
      if strContains k "G" then .ok { c with lbda := some (.num 6730) }
      else .ok c

end GAIACatalogue

namespace SDSSCatalogue

/-- `SDSSCatalogue(empty=True)`: `__build__` stores `key_id="objID"`. -/
def empty : Catalogue :=
  { survey := .sdss, key_id := some "objID" }

/-- `SDSSCatalogue.set_mag_keys`: delegates to the base class, then, when
`key_mag` is not None, looks the wavelength up from the sncosmo bandpass
table for the band named by the first character of the key (the indexing
of an empty key raises an IndexError). -/
def set_mag_keys (c : Catalogue) (km kme : Option String) : Except PyExn Catalogue :=
  let c := c.base_set_mag_keys km kme
  match km with
  | none => .ok c
  | some k =>
      if k = "" then .error .indexError
      else .ok { c with lbda := some (.bandpassWave ("sdss" ++ k.take 1)) }

end SDSSCatalogue

namespace MASSCatalogue

/-- `MASSCatalogue(empty=True)`. -/
def empty : Catalogue :=
  { survey := .mass }

/-- `MASSCatalogue.set_mag_keys`: delegates to the base class, then, when
`key_mag` is not None, sets the hardcoded effective wavelength of the
2MASS J, H or K band, and raises a ValueError for any other key. -/
def set_mag_keys (c : Catalogue) (km kme : Option String) : Except PyExn Catalogue :=
  let c := c.base_set_mag_keys km kme
  match km with
  | none => .ok c
  | some k =>
      if k = "Jmag" then .ok { c with lbda := some (.num 12350) }
      else if k = "Hmag" then .ok { c with lbda := some (.num 16620) }
      else if k = "Kmag" then .ok { c with lbda := some (.num 21590) }
      else .error (.valueError "is not a recognized 2MASS band")

/-- `MASSCatalogue.mag`: when no magnitude key is set, prints a warning,
silently defaults to the J band via `set_mag_keys`, and returns the base
class magnitude column.  The first component collects the printed
warnings. -/
def mag (c : Catalogue) : List String × Except PyExn (Catalogue × String) :=
  if c.key_mag.isNone then
    match set_mag_keys c (some "Jmag") (some "e_Jmag") with
    | .error e => (["No key_mag defined. J band used by default. -> To change: set_mag_keys()"], .error e)
    | .ok c2 => (["No key_mag defined. J band used by default. -> To change: set_mag_keys()"],
                 (c2.base_mag).map (fun m => (c2, m)))
  else ([], (c.base_mag).map (fun m => (c, m)))

/-- `MASSCatalogue.starmask`: `np.ones(self.nobjects_in_fov, dtype="bool")`,
every 2MASS PointSource object is classified as a star. -/
def starmask (c : Catalogue) : List Bool :=
  List.replicate c.nobjects_in_fov true

end MASSCatalogue

namespace WISECatalogue

/-- `WISECatalogue(empty=True)`. -/
def empty : Catalogue :=
  { survey := .wise }

/-- `WISECatalogue.set_mag_keys`: delegates to the base class, then, when
`key_mag` is not None, assigns the placeholder string "TO BE DEFINED" to
`lbda`. -/
def set_mag_keys (c : Catalogue) (km kme : Option String) : Except PyExn Catalogue :=
  let c := c.base_set_mag_keys km kme
  match km with
  | none => .ok c
  | some _ => .ok { c with lbda := some (.strv "TO BE DEFINED") }

/-- `WISECatalogue.mag`: when no magnitude key is set, prints a warning,
silently defaults to the W1 band via `set_mag_keys`, and returns the base
class magnitude column. -/
def mag (c : Catalogue) : List String × Except PyExn (Catalogue × String) :=
  if c.key_mag.isNone then
    match set_mag_keys c (some "W1mag") (some "e_W1mag") with
    | .error e => (["No key_mag defined. W1 band used by default. -> To change: set_mag_keys()"], .error e)
    | .ok c2 => (["No key_mag defined. W1 band used by default. -> To change: set_mag_keys()"],
                 (c2.base_mag).map (fun m => (c2, m)))
  else ([], (c.base_mag).map (fun m => (c, m)))

end WISECatalogue

/-- The message of the ImportError every fetcher raises when astroquery
cannot be imported. -/
def astroqueryHint : String := "install astroquery. (pip install astroquery)"

/-- The IOError message of the 2MASS and WISE fetchers. -/
def queryIOErrorMsg : String :=
  "Error while querying the given coords. You might not have an internet connection"

/-- `fetch_gaia_catalogue`, with the astroquery import and the outcome of
`c.query_region(center, radius).values()` as explicit parameters.  The
query is not wrapped: a client exception propagates; an empty table list
raises the IndexError of `values()[0]`. -/
def fetch_gaia_catalogue (astroquery_ok : Bool)
    (query_result : Except PyExn (List Table)) : Except PyExn Catalogue :=
  if astroquery_ok = false then .error (.importError astroqueryHint)
  else
    match query_result with
    | .error e => .error e
    | .ok [] => .error .indexError
    | .ok (t :: _) =>
        .ok (GAIACatalogue.empty.create t none none "RA_ICRS" "DE_ICRS")

/-- `fetch_sdss_catalogue`: like Gaia, the query is not wrapped. -/
def fetch_sdss_catalogue (astroquery_ok : Bool)
    (query_result : Except PyExn (List Table)) : Except PyExn Catalogue :=
  if astroquery_ok = false then .error (.importError astroqueryHint)
  else
    match query_result with
    | .error e => .error e
    | .ok [] => .error .indexError
    | .ok (t :: _) =>
        .ok (SDSSCatalogue.empty.create t (some "cl") (some 6) "RAJ2000" "DEJ2000")

/-- `fetch_2mass_catalogue`: the whole `query_region(...).values()[0]`
expression sits in a bare try/except that re-raises any exception as an
IOError. -/
def fetch_2mass_catalogue (astroquery_ok : Bool)
    (query_result : Except PyExn (List Table)) : Except PyExn Catalogue :=
  if astroquery_ok = false then .error (.importError astroqueryHint)
  else
    match query_result with
    | .error _ => .error (.ioError queryIOErrorMsg)
    | .ok [] => .error (.ioError queryIOErrorMsg)
    | .ok (t :: _) =>
        .ok (MASSCatalogue.empty.create t (some "PointSource") none "RAJ2000" "DEJ2000")

/-- `fetch_wise_catalogue`: after the astroquery import succeeds, the body
passes `**kwargs` to `vizier.Vizier` although the function signature does
not declare `**kwargs`, so the call raises a NameError before the Vizier
client is built; the region query, its try/except and the catalogue
construction are unreachable. -/
def fetch_wise_catalogue (astroquery_ok : Bool)
    (_query_result : Except PyExn (List Table)) : Except PyExn Catalogue :=
  if astroquery_ok = false then .error (.importError astroqueryHint)
  else .error (.nameError "kwargs")

/-- Numpy boolean-mask indexing `xs[m]`, restricted to the common length. -/
def applyMask {α : Type} (xs : List α) (m : List Bool) : List α :=
  ((xs.zip m).filter (fun pb => pb.2)).map Prod.fst

/-- Modelled from the spec: the parts of the base `Catalogue` that
`stellar_density` reads — the object positions returned by
`get(["ra","dec"])` and the stars-only mask returned by
`get_mask(stars_only=True)`.  Positions stay abstract in `α`; the
angular-separation test `near` abstracts "separation within the radius
`angdist`" (default 0.1 degree). -/
structure SkyView (α : Type) where
  positions : List α
  stars_only_mask : List Bool

/-- Documented behaviour of astropy `c.search_around_sky(c, angdist)`:
every index pair (i, j) whose positions lie within the radius of each
other; component 0 of the astropy result is the list of first indices. -/
def searchAroundSky {α : Type} [Inhabited α] (near : α → α → Bool) (pts : List α) :
    List (Nat × Nat) :=
  (List.range pts.length).flatMap (fun i =>
    ((List.range pts.length).filter
        (fun j => near (pts.getD i default) (pts.getD j default))).map (fun j => (i, j)))

/-- Documented behaviour of `np.bincount`: the occurrence counts of 0, 1,
… up to the largest value of the input; empty on empty input. -/
def bincount (l : List Nat) : List Nat :=
  match l with
  | [] => []
  | _ :: _ => (List.range (l.foldr max 0 + 1)).map (fun i => l.count i)

/-- `stellar_density`: with `mask=None` the stars-only mask of `get_mask`
is used; the masked positions are self-matched within the radius and the
bincount of the first match indices is returned. -/
def stellar_density {α : Type} [Inhabited α] (near : α → α → Bool) (c : SkyView α)
    (mask : Option (List Bool)) : List Nat :=
  let m := mask.getD c.stars_only_mask
  let pts := applyMask c.positions m
  bincount ((searchAroundSky near pts).map Prod.fst)

/-- The spec reading of the result: for every selected object, the number
of selected objects within the radius of it. -/
def neighborCounts {α : Type} [Inhabited α] (near : α → α → Bool) (pts : List α) : List Nat :=
  (List.range pts.length).map (fun i =>
    ((List.range pts.length).filter
        (fun j => near (pts.getD i default) (pts.getD j default))).length)

lemma searchAroundSky_map_fst {α : Type} [Inhabited α] (near : α → α → Bool) (pts : List α) :
    (searchAroundSky near pts).map Prod.fst
      = (List.range pts.length).flatMap (fun i =>
          List.replicate
            (((List.range pts.length).filter
                (fun j => near (pts.getD i default) (pts.getD j default))).length) i) := by
  unfold searchAroundSky
  rw [List.map_flatMap]
  refine List.flatMap_congr (fun i _ => ?_)
  rw [List.map_map]
  exact List.map_const' _ i

lemma count_flatMap_replicate (l : List Nat) (f : Nat → Nat) (hl : l.Nodup) (x : Nat) :
    (l.flatMap (fun i => List.replicate (f i) i)).count x = if x ∈ l then f x else 0 := by
  induction l with
  | nil => simp
  | cons a l ih =>
      obtain ⟨ha, hl'⟩ := List.nodup_cons.mp hl
      rw [List.flatMap_cons, List.count_append, List.count_replicate, ih hl']
      by_cases hx : x = a
      · subst hx; simp [ha]
      · have hax : ¬((a == x) = true) := by
          simp only [beq_iff_eq]
          exact fun h => hx h.symm
        rw [if_neg hax, Nat.zero_add]
        simp [List.mem_cons, hx]

lemma foldr_max_le (l : List Nat) (m : Nat) (h : ∀ x ∈ l, x ≤ m) : l.foldr max 0 ≤ m := by
  induction l with
  | nil => exact Nat.zero_le m
  | cons a l ih =>
      exact max_le (h a (List.mem_cons_self a l)) (ih (fun x hx => h x (List.mem_cons_of_mem a hx)))

lemma le_foldr_max (l : List Nat) (m : Nat) (h : m ∈ l) : m ≤ l.foldr max 0 := by
  induction l with
  | nil => cases h
  | cons a l ih =>
      rcases List.mem_cons.mp h with h | h
      · subst h; exact le_max_left m _
      · exact le_trans (ih h) (le_max_right a _)

lemma bincount_of_ne_nil (l : List Nat) (h : l ≠ []) :
    bincount l = (List.range (l.foldr max 0 + 1)).map (fun i => l.count i) := by
  cases l with
  | nil => exact absurd rfl h
  | cons a t => rfl

/-- The combinatorial heart of C6: when every selected position matches
itself, the bincount of the first indices of the self-match lists, for
each selected object in order, its number of matches. -/
lemma bincount_selfmatch {α : Type} [Inhabited α] (near : α → α → Bool) (pts : List α)
    (href : ∀ i < pts.length, near (pts.getD i default) (pts.getD i default) = true) :
    bincount ((searchAroundSky near pts).map Prod.fst) = neighborCounts near pts := by
  rcases Nat.eq_zero_or_pos pts.length with h0 | hpos
  · rw [searchAroundSky_map_fst]
    simp [h0, neighborCounts, bincount]
  · set n := pts.length with hn
    set f : Nat → Nat := fun i =>
      ((List.range n).filter (fun j => near (pts.getD i default) (pts.getD j default))).length
      with hf
    set l : List Nat := (List.range n).flatMap (fun i => List.replicate (f i) i) with hldef
    have hcount : ∀ x, l.count x = if x < n then f x else 0 := by
      intro x
      rw [hldef, count_flatMap_replicate _ _ (List.nodup_range n) x]
      simp [List.mem_range]
    have hfpos : ∀ i, i < n → 0 < f i := by
      intro i hi
      have hmem : i ∈ (List.range n).filter
          (fun j => near (pts.getD i default) (pts.getD j default)) :=
        List.mem_filter.mpr ⟨List.mem_range.mpr hi, href i hi⟩
      exact List.length_pos.mpr (List.ne_nil_of_mem hmem)
    have hmem_pred : n - 1 ∈ l := by
      rw [hldef]
      refine List.mem_flatMap.mpr ⟨n - 1, List.mem_range.mpr (by omega), ?_⟩
      have hf1 := hfpos (n - 1) (by omega)
      exact List.mem_replicate.mpr ⟨by omega, rfl⟩
    have hlt : ∀ x ∈ l, x < n := by
      intro x hx
      rw [hldef] at hx
      obtain ⟨i, hi, hrep⟩ := List.mem_flatMap.mp hx
      rw [List.eq_of_mem_replicate hrep]
      exact List.mem_range.mp hi
    have hmax : l.foldr max 0 = n - 1 := by
      refine le_antisymm (foldr_max_le l (n - 1) (fun x hx => by have := hlt x hx; omega)) ?_
      exact le_foldr_max l (n - 1) hmem_pred
    have hne : l ≠ [] := List.ne_nil_of_mem hmem_pred
    have hn1 : n - 1 + 1 = n := by omega
    rw [searchAroundSky_map_fst, ← hldef, bincount_of_ne_nil l hne, hmax, hn1]
    unfold neighborCounts
    refine List.map_congr_left (fun i hi => ?_)
    rw [hcount i, if_pos (List.mem_range.mp hi)]

/-- C6: with `mask=None`, `stellar_density` selects the positions through
the stars-only mask, self-matches them within the angular radius and
returns the per-object neighbor counts of that self-match (the radius
test is reflexive on the selected positions: an object is within the
radius of itself). -/
theorem C6_stellar_density_selfmatch {α : Type} [Inhabited α] (near : α → α → Bool)
    (c : SkyView α)
    (href : ∀ i < (applyMask c.positions c.stars_only_mask).length,
        near ((applyMask c.positions c.stars_only_mask).getD i default)
             ((applyMask c.positions c.stars_only_mask).getD i default) = true) :
    stellar_density near c none
      = neighborCounts near (applyMask c.positions c.stars_only_mask) :=
  bincount_selfmatch near (applyMask c.positions c.stars_only_mask) href

/-- Neighborhood test of the C6 witness: distance at most 1 on naturals. -/
def nearOne (a b : Nat) : Bool :=
  decide (a - b ≤ 1) && decide (b - a ≤ 1)

/-- Sky view of the C6 witness: five objects, the last not a star. -/
def skyEx : SkyView Nat :=
  { positions := [0, 1, 10, 11, 30], stars_only_mask := [true, true, true, true, false] }

/-- Witness for C6 on a concrete five-object catalogue. -/
theorem C6_witness :
    (∀ i < (applyMask skyEx.positions skyEx.stars_only_mask).length,
        nearOne ((applyMask skyEx.positions skyEx.stars_only_mask).getD i default)
                ((applyMask skyEx.positions skyEx.stars_only_mask).getD i default) = true)
    ∧ stellar_density nearOne skyEx none
        = neighborCounts nearOne (applyMask skyEx.positions skyEx.stars_only_mask) :=
  ⟨by decide, C6_stellar_density_selfmatch nearOne skyEx (by decide)⟩

/-- The observables of a fetched catalogue that claim C9 compares: row
count and the column-key mappings. -/
def catSignature (c : Catalogue) :
    Nat × Option String × Option String × Option String × Option String × Option Int :=
  ((c.data.map Table.nrows).getD 0, c.key_ra, c.key_dec, c.key_id, c.key_class, c.value_star)

/-- C1: whenever the region query succeeds with a non-empty table list,
the Gaia, SDSS and 2MASS fetchers return a catalogue of the survey
subclass populated from the first table — but `fetch_wise_catalogue`
raises a NameError on its undeclared `**kwargs` before the query, so it
never returns a catalogue (the claim fails for WISE; this theorem
evaluates the code at the failing input). -/
theorem C1_fetch_first_table :
    (∀ t rest, (fetch_gaia_catalogue true (.ok (t :: rest))).map
        (fun c => (c.survey, c.data)) = .ok (.gaia, some t))
    ∧ (∀ t rest, (fetch_sdss_catalogue true (.ok (t :: rest))).map
        (fun c => (c.survey, c.data)) = .ok (.sdss, some t))
    ∧ (∀ t rest, (fetch_2mass_catalogue true (.ok (t :: rest))).map
        (fun c => (c.survey, c.data)) = .ok (.mass, some t))
    ∧ fetch_wise_catalogue true (.ok [{ columns := ["RAJ2000", "DEJ2000"], nrows := 3 }])
        = .error (.nameError "kwargs") :=
  ⟨fun _ _ => rfl, fun _ _ => rfl, fun _ _ => rfl, rfl⟩

/-- C2: `MASSCatalogue.set_mag_keys` hardcodes lbda 12350 / 16620 / 21590
for Jmag / Hmag / Kmag and raises a ValueError on any other non-None key;
`SDSSCatalogue.set_mag_keys` looks lbda up from the sncosmo bandpass table
for the band named by the first character of the key; and
`WISECatalogue.set_mag_keys` assigns the placeholder string. -/
theorem C2_set_mag_keys_lbda :
    (∀ c kme, (MASSCatalogue.set_mag_keys c (some "Jmag") kme).map Catalogue.lbda
        = .ok (some (.num 12350)))
    ∧ (∀ c kme, (MASSCatalogue.set_mag_keys c (some "Hmag") kme).map Catalogue.lbda
        = .ok (some (.num 16620)))
    ∧ (∀ c kme, (MASSCatalogue.set_mag_keys c (some "Kmag") kme).map Catalogue.lbda
        = .ok (some (.num 21590)))
    ∧ (∀ c kme k, k ≠ "Jmag" → k ≠ "Hmag" → k ≠ "Kmag" →
        MASSCatalogue.set_mag_keys c (some k) kme
          = .error (.valueError "is not a recognized 2MASS band"))
    ∧ (∀ c kme k, k ≠ "" →
        (SDSSCatalogue.set_mag_keys c (some k) kme).map Catalogue.lbda
          = .ok (some (.bandpassWave ("sdss" ++ k.take 1))))
    ∧ (∀ c kme k, (WISECatalogue.set_mag_keys c (some k) kme).map Catalogue.lbda
        = .ok (some (.strv "TO BE DEFINED"))) := by
  refine ⟨fun c kme => rfl, fun c kme => rfl, fun c kme => rfl, ?_, ?_, fun c kme k => rfl⟩
  · intro c kme k hJ hH hK
    simp [MASSCatalogue.set_mag_keys, hJ, hH, hK]
  · intro c kme k hk
    simp [SDSSCatalogue.set_mag_keys, hk, Except.map]

/-- Witness for C2 at concrete keys. -/
theorem C2_witness :
    MASSCatalogue.set_mag_keys MASSCatalogue.empty (some "umag") none
      = .error (.valueError "is not a recognized 2MASS band")
    ∧ (SDSSCatalogue.set_mag_keys SDSSCatalogue.empty (some "rmag") none).map Catalogue.lbda
      = .ok (some (.bandpassWave ("sdss" ++ "rmag".take 1))) :=
  ⟨C2_set_mag_keys_lbda.2.2.2.1 MASSCatalogue.empty none "umag"
      (by decide) (by decide) (by decide),
   C2_set_mag_keys_lbda.2.2.2.2.1 SDSSCatalogue.empty none "rmag" (by decide)⟩

/-- C3: with the magnitude key unset, `MASSCatalogue.mag` prints a warning
and silently sets the J-band keys before returning, and
`WISECatalogue.mag` prints a warning and silently sets the W1-band keys
before returning; neither fails. -/
theorem C3_mag_defaults (c : Catalogue) (h : c.key_mag = none) :
    MASSCatalogue.mag c =
      (["No key_mag defined. J band used by default. -> To change: set_mag_keys()"],
       .ok ({ c with key_mag := some "Jmag", key_magerr := some "e_Jmag",
                     lbda := some (.num 12350) }, "Jmag"))
    ∧ WISECatalogue.mag c =
      (["No key_mag defined. W1 band used by default. -> To change: set_mag_keys()"],
       .ok ({ c with key_mag := some "W1mag", key_magerr := some "e_W1mag",
                     lbda := some (.strv "TO BE DEFINED") }, "W1mag")) := by
  constructor
  · simp [MASSCatalogue.mag, MASSCatalogue.set_mag_keys, Catalogue.base_set_mag_keys,
          Catalogue.base_mag, h, Except.map]
  · simp [WISECatalogue.mag, WISECatalogue.set_mag_keys, Catalogue.base_set_mag_keys,
          Catalogue.base_mag, h, Except.map]

/-- Witness for C3 on an empty 2MASS catalogue. -/
theorem C3_witness :
    MASSCatalogue.mag MASSCatalogue.empty =
      (["No key_mag defined. J band used by default. -> To change: set_mag_keys()"],
       .ok ({ survey := .mass, key_mag := some "Jmag", key_magerr := some "e_Jmag",
              lbda := some (.num 12350) }, "Jmag"))
    ∧ WISECatalogue.mag MASSCatalogue.empty =
      (["No key_mag defined. W1 band used by default. -> To change: set_mag_keys()"],
       .ok ({ survey := .mass, key_mag := some "W1mag", key_magerr := some "e_W1mag",
              lbda := some (.strv "TO BE DEFINED") }, "W1mag")) :=
  C3_mag_defaults MASSCatalogue.empty rfl

/-- C4: a failing region query is re-raised as an IOError by
`fetch_2mass_catalogue`, propagates unwrapped from `fetch_gaia_catalogue`
and `fetch_sdss_catalogue` — but `fetch_wise_catalogue` raises the
NameError of its undeclared `**kwargs` before the query can fail, not an
IOError (the claim fails for WISE; the last conjunct evaluates the code at
the failing input). -/
theorem C4_query_error_handling :
    (∀ e, fetch_2mass_catalogue true (.error e) = .error (.ioError queryIOErrorMsg))
    ∧ (∀ e, fetch_gaia_catalogue true (.error e) = .error e)
    ∧ (∀ e, fetch_sdss_catalogue true (.error e) = .error e)
    ∧ fetch_wise_catalogue true (.error (.other "socket timeout"))
        = .error (.nameError "kwargs") :=
  ⟨fun _ => rfl, fun _ => rfl, fun _ => rfl, rfl⟩

/-- C5: with astroquery unavailable every fetcher raises the ImportError
carrying the pip remediation hint, whatever the remote query would have
returned (so no query is attempted). -/
theorem C5_importerror_hint :
    (∀ q, fetch_gaia_catalogue false q = .error (.importError astroqueryHint))
    ∧ (∀ q, fetch_sdss_catalogue false q = .error (.importError astroqueryHint))
    ∧ (∀ q, fetch_2mass_catalogue false q = .error (.importError astroqueryHint))
    ∧ (∀ q, fetch_wise_catalogue false q = .error (.importError astroqueryHint))
    ∧ strContains astroqueryHint "pip install astroquery" = true :=
  ⟨fun _ => rfl, fun _ => rfl, fun _ => rfl, fun _ => rfl, by decide⟩

/-- C7: the 2MASS classification-based starmask is a boolean array of
length `nobjects_in_fov` whose entries are all True. -/
theorem C7_mass_starmask (c : Catalogue) :
    (MASSCatalogue.starmask c).length = c.nobjects_in_fov
    ∧ (MASSCatalogue.starmask c).all (fun b => b) = true := by
  constructor
  · simp [MASSCatalogue.starmask]
  · simp [MASSCatalogue.starmask, List.all_eq_true]

/-- C8: for each subclass, the lbda outcome of `set_mag_keys` is the same
whether data has been loaded or not: loading a table touches only the
data, never the key or the stored lbda that `set_mag_keys` reads. -/
theorem C8_lbda_load_invariant (c : Catalogue) (t : Table) (km kme : Option String) :
    (GAIACatalogue.set_mag_keys (c.load t) km kme).map Catalogue.lbda
      = (GAIACatalogue.set_mag_keys c km kme).map Catalogue.lbda
    ∧ (SDSSCatalogue.set_mag_keys (c.load t) km kme).map Catalogue.lbda
      = (SDSSCatalogue.set_mag_keys c km kme).map Catalogue.lbda
    ∧ (MASSCatalogue.set_mag_keys (c.load t) km kme).map Catalogue.lbda
      = (MASSCatalogue.set_mag_keys c km kme).map Catalogue.lbda
    ∧ (WISECatalogue.set_mag_keys (c.load t) km kme).map Catalogue.lbda
      = (WISECatalogue.set_mag_keys c km kme).map Catalogue.lbda := by
  refine ⟨?_, ?_, ?_, ?_⟩
  · cases km with
    | none => rfl
    | some k =>
        by_cases hG : strContains k "G" <;>
          simp [GAIACatalogue.set_mag_keys, Catalogue.base_set_mag_keys,
                Catalogue.load, hG, Except.map]
  · cases km with
    | none => rfl
    | some k =>
        by_cases hk : k = "" <;>
          simp [SDSSCatalogue.set_mag_keys, Catalogue.base_set_mag_keys,
                Catalogue.load, hk, Except.map]
  · cases km with
    | none => rfl
    | some k =>
        by_cases hJ : k = "Jmag" <;> by_cases hH : k = "Hmag" <;> by_cases hK : k = "Kmag" <;>
          simp [MASSCatalogue.set_mag_keys, Catalogue.base_set_mag_keys,
                Catalogue.load, hJ, hH, hK, Except.map]
  · cases km with
    | none => rfl
    | some k =>
        simp [WISECatalogue.set_mag_keys, Catalogue.base_set_mag_keys,
              Catalogue.load, Except.map]

/-- C9: for fixed query parameters and identical responses from the remote
client, two invocations of the Gaia and SDSS fetchers yield catalogues
with identical row counts and column-key mappings. -/
theorem C9_fetch_deterministic (r₁ r₂ : Except PyExn (List Table)) (h : r₁ = r₂) :
    (fetch_gaia_catalogue true r₁).map catSignature
      = (fetch_gaia_catalogue true r₂).map catSignature
    ∧ (fetch_sdss_catalogue true r₁).map catSignature
      = (fetch_sdss_catalogue true r₂).map catSignature := by
  subst h; exact ⟨rfl, rfl⟩

/-- Witness for C9 at a concrete one-table response. -/
theorem C9_witness :
    (fetch_gaia_catalogue true (.ok [{ columns := ["RA_ICRS"], nrows := 2 }])).map catSignature
      = (fetch_gaia_catalogue true (.ok [{ columns := ["RA_ICRS"], nrows := 2 }])).map catSignature
    ∧ (fetch_sdss_catalogue true (.ok [{ columns := ["RA_ICRS"], nrows := 2 }])).map catSignature
      = (fetch_sdss_catalogue true (.ok [{ columns := ["RA_ICRS"], nrows := 2 }])).map catSignature :=
  C9_fetch_deterministic (.ok [{ columns := ["RA_ICRS"], nrows := 2 }])
    (.ok [{ columns := ["RA_ICRS"], nrows := 2 }]) rfl

/-- C10: `GAIACatalogue.set_mag_keys` with a None key fails with a
TypeError (membership test on None), while the SDSS, 2MASS and WISE
subclasses guard on None, store the keys through the base class and leave
the effective wavelength untouched. -/
theorem C10_none_key_guard :
    (∀ c kme, GAIACatalogue.set_mag_keys c none kme
        = .error (.typeError "argument of type NoneType is not iterable"))
    ∧ (∀ c kme, SDSSCatalogue.set_mag_keys c none kme = .ok (c.base_set_mag_keys none kme)
        ∧ (c.base_set_mag_keys none kme).lbda = c.lbda)
    ∧ (∀ c kme, MASSCatalogue.set_mag_keys c none kme = .ok (c.base_set_mag_keys none kme)
        ∧ (c.base_set_mag_keys none kme).lbda = c.lbda)
    ∧ (∀ c kme, WISECatalogue.set_mag_keys c none kme = .ok (c.base_set_mag_keys none kme)
        ∧ (c.base_set_mag_keys none kme).lbda = c.lbda) :=
  ⟨fun _ _ => rfl, fun _ _ => ⟨rfl, rfl⟩, fun _ _ => ⟨rfl, rfl⟩, fun _ _ => ⟨rfl, rfl⟩⟩
